import Mathlib

/-!
Formal model of the frame masking and batch processing pipeline of the
masquerade repository, shallowly embedding the relevant routines of
`server/services/videoProcessor.ts` and `server/services/frameExtractor.ts`.
JavaScript numbers are modelled as `ℚ`/`ℤ`/`ℕ` with the exact arithmetic
the routines perform on the value ranges they handle.
-/

namespace Masquerade

/-- Transformation matrix `{scaleX, scaleY, offsetX, offsetY}` mapping
canvas-display space to frame space (`interface TransformationMatrix`,
videoProcessor.ts). -/
structure TransformationMatrix where
  scaleX : ℚ
  scaleY : ℚ
  offsetX : ℚ
  offsetY : ℚ
deriving Repr, DecidableEq

/-- Main branch of `calculateTransformationMatrix` (videoProcessor.ts lines
71-112), taken when the mask carries `imageDisplayInfo`
(`displayScale`, `displayOffsetX`, `displayOffsetY`) and `imageDimensions`
(`imageW`, `imageH`): the displayed image size is the natural size times the
display scale, scale factors map the displayed image onto the frame, and the
offsets cancel the letterbox placement. -/
def calculateTransformationMatrix (imageW imageH displayScale
    displayOffsetX displayOffsetY frameW frameH : ℚ) : TransformationMatrix :=
  let displayedImageWidth := imageW * displayScale
  let displayedImageHeight := imageH * displayScale
  let scaleX := frameW / displayedImageWidth
  let scaleY := frameH / displayedImageHeight
  let offsetX := -displayOffsetX * scaleX
  let offsetY := -displayOffsetY * scaleY
  ⟨scaleX, scaleY, offsetX, offsetY⟩

/-- Point map `transformCoordinates` (videoProcessor.ts lines 146-155):
`(cx, cy) ↦ (cx*scaleX + offsetX, cy*scaleY + offsetY)`. -/
def transformCoordinates (canvasX canvasY : ℚ) (matrix : TransformationMatrix) :
    ℚ × ℚ :=
  (canvasX * matrix.scaleX + matrix.offsetX, canvasY * matrix.scaleY + matrix.offsetY)

/-- Mask rectangle in pixel coordinates (`pixelCoords` in `processFrame`,
videoProcessor.ts). Coordinates are integers, possibly out of range. -/
structure MaskRect where
  x : ℤ
  y : ℤ
  width : ℤ
  height : ℤ
deriving Repr, DecidableEq

/-- Bounds validation and clamping of the mask rectangle in `processFrame`
(videoProcessor.ts lines 1409-1423): when the rectangle exceeds the frame
bounds, `x`/`y` are clamped into `[0, frame-1]` and `width`/`height` are
clamped to fit inside the frame with a minimum of 1 pixel; an in-bounds
rectangle is left untouched. -/
def clampMaskCoords (r : MaskRect) (frameW frameH : ℤ) : MaskRect :=
  if r.x < 0 ∨ r.y < 0 ∨ r.x + r.width > frameW ∨ r.y + r.height > frameH then
    let x := max 0 (min r.x (frameW - 1))
    let y := max 0 (min r.y (frameH - 1))
    let w := max 1 (min r.width (frameW - x))
    let h := max 1 (min r.height (frameH - y))
    ⟨x, y, w, h⟩
  else
    r

/-- C1: for a mask with a display placement record and natural image
dimensions and a positive frame size, the transformation matrix has
`scaleX = frameWidth / (naturalWidth * scale)`,
`scaleY = frameHeight / (naturalHeight * scale)`,
`offsetX = -displayOffsetX * scaleX`, `offsetY = -displayOffsetY * scaleY`,
and `transformCoordinates` maps the displayed image's top-left corner to
`(0, 0)` and its bottom-right corner to `(frameWidth, frameHeight)`. -/
theorem transform_matrix_corners_exact
    (imageW imageH displayScale displayOffsetX displayOffsetY frameW frameH : ℚ)
    (hiw : 0 < imageW) (hih : 0 < imageH) (hsc : 0 < displayScale)
    (hfw : 0 < frameW) (hfh : 0 < frameH) :
    (calculateTransformationMatrix imageW imageH displayScale
        displayOffsetX displayOffsetY frameW frameH).scaleX =
      frameW / (imageW * displayScale) ∧
    (calculateTransformationMatrix imageW imageH displayScale
        displayOffsetX displayOffsetY frameW frameH).scaleY =
      frameH / (imageH * displayScale) ∧
    (calculateTransformationMatrix imageW imageH displayScale
        displayOffsetX displayOffsetY frameW frameH).offsetX =
      -displayOffsetX * (frameW / (imageW * displayScale)) ∧
    (calculateTransformationMatrix imageW imageH displayScale
        displayOffsetX displayOffsetY frameW frameH).offsetY =
      -displayOffsetY * (frameH / (imageH * displayScale)) ∧
    transformCoordinates displayOffsetX displayOffsetY
        (calculateTransformationMatrix imageW imageH displayScale
          displayOffsetX displayOffsetY frameW frameH) = (0, 0) ∧
    transformCoordinates (displayOffsetX + imageW * displayScale)
        (displayOffsetY + imageH * displayScale)
        (calculateTransformationMatrix imageW imageH displayScale
          displayOffsetX displayOffsetY frameW frameH) = (frameW, frameH) := by
  have hw : imageW * displayScale ≠ 0 := by positivity
  have hh : imageH * displayScale ≠ 0 := by positivity
  unfold calculateTransformationMatrix transformCoordinates
  refine ⟨rfl, rfl, rfl, rfl, ?_, ?_⟩ <;>
  · simp only [Prod.mk.injEq]
    constructor <;> field_simp <;> ring

/-- Witness for the transform-correctness theorem at a concrete display
placement (natural 640×480 image at scale 1/2, offsets (20, 30), frame
1280×720). -/
theorem transform_matrix_corners_exact_witness :
    (0 < (640 : ℚ) ∧ 0 < (480 : ℚ) ∧ 0 < (1/2 : ℚ) ∧ 0 < (1280 : ℚ) ∧ 0 < (720 : ℚ)) ∧
    transformCoordinates (20 + 640 * (1/2)) (30 + 480 * (1/2))
      (calculateTransformationMatrix 640 480 (1/2) 20 30 1280 720) = (1280, 720) :=
  ⟨⟨by norm_num, by norm_num, by norm_num, by norm_num, by norm_num⟩,
    (transform_matrix_corners_exact 640 480 (1/2) 20 30 1280 720
      (by norm_num) (by norm_num) (by norm_num) (by norm_num) (by norm_num)).2.2.2.2.2⟩

/-- C3 counterexample: the in-bounds rectangle `(0, 0, 0, 0)` on a 100×100
frame does not trigger the clamping branch, so the "clamped" rectangle keeps
width 0 and height 0, refuting the claim that the result always has
`width ≥ 1` and `height ≥ 1` for arbitrary integer inputs. -/
theorem clamp_zero_size_counterexample :
    ¬ (1 ≤ (clampMaskCoords ⟨0, 0, 0, 0⟩ 100 100).width ∧
       1 ≤ (clampMaskCoords ⟨0, 0, 0, 0⟩ 100 100).height) := by
  decide

/-- C3 (amended): for all mask rectangles with input width and height at
least 1, on a frame of positive size, the clamped rectangle satisfies
`0 ≤ x`, `0 ≤ y`, `x + width ≤ frameW`, `y + height ≤ frameH`,
`width ≥ 1`, `height ≥ 1`; and the scenario rectangle `(90, 90, 20, 20)` on
a 100×100 frame clamps to `(90, 90, 10, 10)`. -/
theorem clamp_invariant
    (r : MaskRect) (frameW frameH : ℤ)
    (hW : 1 ≤ frameW) (hH : 1 ≤ frameH)
    (hw : 1 ≤ r.width) (hh : 1 ≤ r.height) :
    (0 ≤ (clampMaskCoords r frameW frameH).x ∧
     0 ≤ (clampMaskCoords r frameW frameH).y ∧
     (clampMaskCoords r frameW frameH).x + (clampMaskCoords r frameW frameH).width ≤ frameW ∧
     (clampMaskCoords r frameW frameH).y + (clampMaskCoords r frameW frameH).height ≤ frameH ∧
     1 ≤ (clampMaskCoords r frameW frameH).width ∧
     1 ≤ (clampMaskCoords r frameW frameH).height) ∧
    clampMaskCoords ⟨90, 90, 20, 20⟩ 100 100 = ⟨90, 90, 10, 10⟩ := by
  obtain ⟨x, y, w, h⟩ := r
  refine ⟨?_, by decide⟩
  simp only [clampMaskCoords] at *
  split <;> simp_all <;> omega

/-- Witness for the clamping invariant at the out-of-bounds rectangle
`(-5, -7, 50, 60)` on a 100×100 frame. -/
theorem clamp_invariant_witness :
    ((1 : ℤ) ≤ 100 ∧ (1 : ℤ) ≤ 100 ∧ (1 : ℤ) ≤ 50 ∧ (1 : ℤ) ≤ 60) ∧
    (0 ≤ (clampMaskCoords ⟨-5, -7, 50, 60⟩ 100 100).x ∧
     0 ≤ (clampMaskCoords ⟨-5, -7, 50, 60⟩ 100 100).y ∧
     (clampMaskCoords ⟨-5, -7, 50, 60⟩ 100 100).x +
       (clampMaskCoords ⟨-5, -7, 50, 60⟩ 100 100).width ≤ 100 ∧
     (clampMaskCoords ⟨-5, -7, 50, 60⟩ 100 100).y +
       (clampMaskCoords ⟨-5, -7, 50, 60⟩ 100 100).height ≤ 100 ∧
     1 ≤ (clampMaskCoords ⟨-5, -7, 50, 60⟩ 100 100).width ∧
     1 ≤ (clampMaskCoords ⟨-5, -7, 50, 60⟩ 100 100).height) :=
  ⟨⟨by decide, by decide, by decide, by decide⟩,
    (clamp_invariant ⟨-5, -7, 50, 60⟩ 100 100
      (by decide) (by decide) (by decide) (by decide)).1⟩

/-- One RGBA mask-buffer pixel (byte channel values 0-255). -/
structure Rgba where
  r : ℕ
  g : ℕ
  b : ℕ
  a : ℕ
deriving Repr, DecidableEq

/-- One frame pixel with RGB channels (the frame buffers are processed as
3-channel raw RGB). -/
structure Pixel where
  r : ℕ
  g : ℕ
  b : ℕ
deriving Repr, DecidableEq

/-- Alpha threshold of the dual-condition mask detection
(`createMaskFromBase64`, videoProcessor.ts line 1894). -/
def alphaThreshold : ℕ := 128

/-- Red minimum of the dual-condition mask detection (line 1895). -/
def redMinimum : ℕ := 150

/-- Red dominance ratio of the dual-condition mask detection (line 1896). -/
def redDominanceRatio : ℚ := 3 / 2

/-- Per-pixel classification of the scaled raster mask in
`createMaskFromBase64` (videoProcessor.ts lines 1902-1947), for a 4-channel
(RGBA) scaled raster: a pixel is detected iff `isDrawn` (alpha above the
threshold) and `isRed` (red above the minimum and dominating green and blue
by the ratio); detected pixels become opaque white in the output buffer,
all others stay fully transparent. -/
def classifyMaskPixel (p : Rgba) : Rgba :=
  if alphaThreshold < p.a ∧ redMinimum < p.r ∧
      (p.g : ℚ) * redDominanceRatio < (p.r : ℚ) ∧
      (p.b : ℚ) * redDominanceRatio < (p.r : ℚ) then
    ⟨255, 255, 255, 255⟩
  else
    ⟨0, 0, 0, 0⟩

/-- The per-pixel analysis loop of `createMaskFromBase64` applied to the
whole scaled raster. -/
def createMaskPixels (maskRaw : List Rgba) : List Rgba :=
  maskRaw.map classifyMaskPixel

/-- The body and catch of `createMaskFromBase64` (videoProcessor.ts lines
1742-2003): the decode-and-scale stage either yields the scaled raster
(modelled as an `Except` value) which is classified pixel by pixel, or
throws, in which case the catch block returns a fully transparent RGBA
buffer of `frameWidth * frameHeight` pixels. -/
def createMaskFromBase64 (decoded : Except String (List Rgba))
    (frameWidth frameHeight : ℕ) : List Rgba :=
  match decoded with
  | .ok maskRaw => createMaskPixels maskRaw
  | .error _ => List.replicate (frameWidth * frameHeight) ⟨0, 0, 0, 0⟩

/-- Compositing loop of `processFrame` (videoProcessor.ts lines 1458-1496,
identical in `processFrameBatch` lines 1250-1260): for every frame pixel,
if the mask pixel's alpha is greater than 0 the frame pixel is overwritten
with black `(0, 0, 0)`, otherwise it is left unchanged; a missing mask
pixel (index past the mask buffer) reads as alpha 0. -/
def applyMaskToFrame : List Pixel → List Rgba → List Pixel
  | [], _ => []
  | px :: fs, [] => px :: applyMaskToFrame fs []
  | px :: fs, m :: ms =>
      (if 0 < m.a then ⟨0, 0, 0⟩ else px) :: applyMaskToFrame fs ms

/-- Opacity byte of the vector-shape path of `createMaskRgbaBuffer`
(videoProcessor.ts line 1628): `Math.floor((opacity / 100) * 255)`,
exact on the 0-100 range. -/
def opacityByte (opacityPercent : ℕ) : ℕ :=
  opacityPercent * 255 / 100

/-- One pixel of the rectangle mask written by the rectangle loops of
`createMaskRgbaBuffer` (videoProcessor.ts lines 1656-1664 and 1677-1686):
buffer index `i` addresses pixel `(i % width, i / width)`, and pixels inside
the rectangle get `(255, 255, 255, opacityVal)` while the rest of the
buffer keeps its transparent fill `(0, 0, 0, 0)`. -/
def rectMaskPixel (x y w h : ℤ) (opacityVal : ℕ) (width : ℕ) (i : ℕ) : Rgba :=
  if x ≤ ((i % width : ℕ) : ℤ) ∧ ((i % width : ℕ) : ℤ) < x + w ∧
      y ≤ ((i / width : ℕ) : ℤ) ∧ ((i / width : ℕ) : ℤ) < y + h then
    ⟨255, 255, 255, opacityVal⟩
  else
    ⟨0, 0, 0, 0⟩

/-- Rectangle branch of the vector-shape (percentage-coordinate) path of
`createMaskRgbaBuffer` (videoProcessor.ts lines 1619-1688): the RGBA buffer
starts fully transparent, the opacity byte is `floor(opacity/100 * 255)`,
invalid fractional coordinates fall back to a centered rectangle covering
half the frame, and valid ones are floored to pixel coordinates. -/
def createRectMaskBuffer (xPct yPct wPct hPct : ℚ) (opacityPercent : ℕ)
    (width height : ℕ) : List Rgba :=
  let opacityVal := opacityByte opacityPercent
  if xPct < 0 ∨ 1 < xPct ∨ yPct < 0 ∨ 1 < yPct ∨ wPct ≤ 0 ∨ hPct ≤ 0 then
    (List.range (width * height)).map
      (rectMaskPixel (width / 4 : ℕ) (height / 4 : ℕ)
        (width / 2 : ℕ) (height / 2 : ℕ) opacityVal width)
  else
    (List.range (width * height)).map
      (rectMaskPixel ⌊xPct * width⌋ ⌊yPct * height⌋
        ⌊wPct * width⌋ ⌊hPct * height⌋ opacityVal width)

/-- Raster-mask portion of `processFrame` (videoProcessor.ts lines
1440-1496 and 1575-1579): the mask buffer is produced by
`createMaskFromBase64`, which traps its own decode/scale errors, so the
composite runs on whatever buffer comes back and the frame is reported
successful. -/
structure RasterFrameOutcome where
  success : Bool
  pixels : List Pixel
deriving Repr, DecidableEq

/-- The raster-path frame processing step: build the mask (decode result
given as an `Except`), composite, report success. -/
def processFrameRaster (framePixels : List Pixel)
    (decoded : Except String (List Rgba)) (frameWidth frameHeight : ℕ) :
    RasterFrameOutcome :=
  let maskRgba := createMaskFromBase64 decoded frameWidth frameHeight
  ⟨true, applyMaskToFrame framePixels maskRgba⟩

/-- Compositing with a mask whose alpha is 0 everywhere leaves the frame
unchanged. -/
theorem applyMaskToFrame_alpha_zero (frame : List Pixel) :
    ∀ mask : List Rgba, (∀ m ∈ mask, m.a = 0) →
      applyMaskToFrame frame mask = frame := by
  induction frame with
  | nil => intro mask _; rfl
  | cons px fs ih =>
    intro mask hmask
    cases mask with
    | nil => simp [applyMaskToFrame, ih [] (by simp)]
    | cons m ms =>
      have hm : m.a = 0 := hmask m (by simp)
      simp [applyMaskToFrame, hm, ih ms fun q hq => hmask q (by simp [hq])]

/-- The alpha channel written by `rectMaskPixel` is the opacity byte inside
the rectangle and 0 outside. -/
theorem rectMaskPixel_alpha (x y w h : ℤ) (v width i : ℕ) :
    (rectMaskPixel x y w h v width i).a = v ∨ (rectMaskPixel x y w h v width i).a = 0 := by
  unfold rectMaskPixel
  split <;> simp

/-- With opacity byte 0, every pixel of the rectangle mask has alpha 0. -/
theorem rectMaskPixel_alpha_zero (x y w h : ℤ) (width i : ℕ) :
    (rectMaskPixel x y w h 0 width i).a = 0 := by
  unfold rectMaskPixel
  split <;> rfl

/-- Positivity of the written alpha only depends on positivity of the
opacity byte, pixel by pixel. -/
theorem rectMaskPixel_alpha_pos_iff (x y w h : ℤ) (v₁ v₂ width : ℕ)
    (h₁ : 0 < v₁) (h₂ : 0 < v₂) (i : ℕ) :
    0 < (rectMaskPixel x y w h v₁ width i).a ↔
    0 < (rectMaskPixel x y w h v₂ width i).a := by
  unfold rectMaskPixel
  split <;> simp [h₁, h₂]

/-- Compositing only looks at whether each mask pixel's alpha is positive:
two masks built over the same index list by functions with pointwise
equivalent alpha positivity composite identically. -/
theorem applyMaskToFrame_congr_alpha (frame : List Pixel) :
    ∀ (idxs : List ℕ) (f₁ f₂ : ℕ → Rgba),
      (∀ i, 0 < (f₁ i).a ↔ 0 < (f₂ i).a) →
      applyMaskToFrame frame (idxs.map f₁) = applyMaskToFrame frame (idxs.map f₂) := by
  induction frame with
  | nil => intro idxs f₁ f₂ _; rfl
  | cons px fs ih =>
    intro idxs f₁ f₂ hiff
    cases idxs with
    | nil => rfl
    | cons i rest =>
      simp only [List.map, applyMaskToFrame]
      congr 1
      · by_cases hpos : 0 < (f₁ i).a
        · rw [if_pos hpos, if_pos ((hiff i).1 hpos)]
        · rw [if_neg hpos, if_neg (fun hh => hpos ((hiff i).2 hh))]
      · exact ih rest f₁ f₂ hiff

/-- C2: in the raster-payload path, the output pixel for a scaled-raster
pixel with channels `(r, g, b, a)` is opaque white `(255, 255, 255, 255)`
iff `a > 128` and `r > 150` and `r > 1.5*g` and `r > 1.5*b`, and is fully
transparent `(0, 0, 0, 0)` otherwise; the whole opacity buffer is this
classification applied pixel by pixel. -/
theorem raster_mask_dual_condition (p : Rgba) (maskRaw : List Rgba) :
    (classifyMaskPixel p = ⟨255, 255, 255, 255⟩ ↔
      (128 < p.a ∧ 150 < p.r ∧
        (p.g : ℚ) * (3 / 2) < (p.r : ℚ) ∧ (p.b : ℚ) * (3 / 2) < (p.r : ℚ))) ∧
    (classifyMaskPixel p = ⟨255, 255, 255, 255⟩ ∨
      classifyMaskPixel p = ⟨0, 0, 0, 0⟩) ∧
    ∀ i (h : i < maskRaw.length),
      (createMaskPixels maskRaw).get ⟨i, by simpa [createMaskPixels] using h⟩ =
        classifyMaskPixel (maskRaw.get ⟨i, h⟩) := by
  refine ⟨?_, ?_, ?_⟩
  · unfold classifyMaskPixel alphaThreshold redMinimum redDominanceRatio
    split
    next hcond => exact iff_of_true rfl hcond
    next hcond => exact iff_of_false (by simp) hcond
  · unfold classifyMaskPixel
    split <;> simp
  · intro i h
    simp [createMaskPixels, List.get_eq_getElem, List.getElem_map]

/-- Witness for the raster classification at a red-dominant opaque pixel. -/
theorem raster_mask_dual_condition_witness :
    classifyMaskPixel ⟨200, 40, 30, 255⟩ = ⟨255, 255, 255, 255⟩ :=
  (raster_mask_dual_condition ⟨200, 40, 30, 255⟩ []).1.mpr
    ⟨by norm_num, by norm_num, by norm_num, by norm_num⟩

/-- C9: if decoding or scaling of the raster payload throws,
`createMaskFromBase64` returns a fully transparent RGBA buffer of
`frameWidth * frameHeight` pixels instead of propagating the error, the
composite leaves every frame pixel unchanged, and the frame is still
reported successful. -/
theorem decode_error_transparent_fallback (e : String) (framePixels : List Pixel)
    (frameWidth frameHeight : ℕ) :
    createMaskFromBase64 (.error e) frameWidth frameHeight =
      List.replicate (frameWidth * frameHeight) ⟨0, 0, 0, 0⟩ ∧
    (createMaskFromBase64 (.error e) frameWidth frameHeight).length =
      frameWidth * frameHeight ∧
    processFrameRaster framePixels (.error e) frameWidth frameHeight =
      ⟨true, framePixels⟩ := by
  refine ⟨rfl, by simp [createMaskFromBase64], ?_⟩
  unfold processFrameRaster createMaskFromBase64
  simp only [RasterFrameOutcome.mk.injEq, true_and]
  exact applyMaskToFrame_alpha_zero _ _ fun m hm => by
    have hme := List.eq_of_mem_replicate hm
    simp [hme]

/-- C10: in the vector-shape rectangle path, the buffer's alpha at masked
pixels is `floor(opacity/100 * 255)`, positive for every opacity 1-100; the
compositor blackens any pixel under positive alpha to exactly `(0, 0, 0)`;
so the composited frame is identical for all opacities in 1..100, and
opacity 0 leaves every frame pixel unchanged. -/
theorem vector_opacity_no_blend (xPct yPct wPct hPct : ℚ) (width height : ℕ)
    (frame : List Pixel) (o o₁ o₂ : ℕ)
    (ho1 : 1 ≤ o) (ho2 : o ≤ 100)
    (h11 : 1 ≤ o₁) (h12 : o₁ ≤ 100) (h21 : 1 ≤ o₂) (h22 : o₂ ≤ 100) :
    0 < opacityByte o ∧
    (∀ p ∈ createRectMaskBuffer xPct yPct wPct hPct o width height,
        p.a = opacityByte o ∨ p.a = 0) ∧
    (∀ (px : Pixel) (fs : List Pixel) (m : Rgba) (ms : List Rgba), 0 < m.a →
        applyMaskToFrame (px :: fs) (m :: ms) = ⟨0, 0, 0⟩ :: applyMaskToFrame fs ms) ∧
    applyMaskToFrame frame (createRectMaskBuffer xPct yPct wPct hPct o₁ width height) =
      applyMaskToFrame frame (createRectMaskBuffer xPct yPct wPct hPct o₂ width height) ∧
    applyMaskToFrame frame (createRectMaskBuffer xPct yPct wPct hPct 0 width height) =
      frame := by
  have hpos : ∀ m : ℕ, 1 ≤ m → 0 < opacityByte m := by
    intro m hm
    unfold opacityByte
    omega
  refine ⟨hpos o ho1, ?_, ?_, ?_, ?_⟩
  · intro p hp
    unfold createRectMaskBuffer at hp
    split at hp <;>
    · obtain ⟨i, _, hi⟩ := List.mem_map.1 hp
      subst hi
      exact rectMaskPixel_alpha _ _ _ _ _ _ _
  · intro px fs m ms hm
    simp [applyMaskToFrame, hm]
  · unfold createRectMaskBuffer
    split <;>
    · exact applyMaskToFrame_congr_alpha frame _ _ _
        (rectMaskPixel_alpha_pos_iff _ _ _ _ _ _ _ (hpos o₁ h11) (hpos o₂ h21))
  · apply applyMaskToFrame_alpha_zero
    intro m hm
    unfold createRectMaskBuffer at hm
    split at hm <;>
    · obtain ⟨i, _, hi⟩ := List.mem_map.1 hm
      subst hi
      exact rectMaskPixel_alpha_zero _ _ _ _ _ _

/-- Witness for the opacity-independence theorem: opacities 1 and 100 give
the same composited frame for a concrete rectangle mask on a 4×4 frame. -/
theorem vector_opacity_no_blend_witness :
    ((1 : ℕ) ≤ 75 ∧ (75 : ℕ) ≤ 100 ∧ (1 : ℕ) ≤ 1 ∧ (1 : ℕ) ≤ 100 ∧
      (1 : ℕ) ≤ 100 ∧ (100 : ℕ) ≤ 100) ∧
    applyMaskToFrame [⟨1, 2, 3⟩, ⟨4, 5, 6⟩]
        (createRectMaskBuffer (1/4) (1/4) (1/2) (1/2) 1 4 4) =
      applyMaskToFrame [⟨1, 2, 3⟩, ⟨4, 5, 6⟩]
        (createRectMaskBuffer (1/4) (1/4) (1/2) (1/2) 100 4 4) :=
  ⟨⟨by decide, by decide, by decide, by decide, by decide, by decide⟩,
    (vector_opacity_no_blend (1/4) (1/4) (1/2) (1/2) 4 4
      [⟨1, 2, 3⟩, ⟨4, 5, 6⟩] 75 1 100
      (by decide) (by decide) (by decide) (by decide) (by decide) (by decide)).2.2.2.1⟩

/-- Result of one frame-processing task as returned by `processFrameBatch` /
`processFrame` (videoProcessor.ts): frame number, success flag, and the
encoded output bytes. -/
structure FrameTaskResult where
  frameNumber : ℕ
  success : Bool
  processedBuffer : List ℕ
deriving Repr, DecidableEq

/-- Entry of the final `processedFrames` list handed to output assembly
(videoProcessor.ts lines 938-948). -/
structure ProcessedFrame where
  frameNumber : ℕ
  buffer : List ℕ
deriving Repr, DecidableEq

/-- Collection step of `processBatchesInParallel` (videoProcessor.ts lines
933-951): a successful result keeps its buffer, a failed result becomes a
placeholder with an empty buffer, preserving the frame number either way. -/
def collectFrameResult (result : FrameTaskResult) : ProcessedFrame :=
  if result.success then ⟨result.frameNumber, result.processedBuffer⟩
  else ⟨result.frameNumber, []⟩

/-- Comparator of the final sort (videoProcessor.ts line 955:
`sort((a, b) => a.frameNumber - b.frameNumber)`). -/
def frameLE (a b : ProcessedFrame) : Prop :=
  a.frameNumber ≤ b.frameNumber

instance : DecidableRel frameLE :=
  fun a b => Nat.decLe a.frameNumber b.frameNumber

instance : IsTotal ProcessedFrame frameLE :=
  ⟨fun a b => Nat.le_total a.frameNumber b.frameNumber⟩

instance : IsTrans ProcessedFrame frameLE :=
  ⟨fun _ _ _ => Nat.le_trans⟩

/-- Flatten-and-sort step of `processBatchesInParallel` (videoProcessor.ts
lines 930-956): every per-frame result from the flattened batch results is
collected (failures as placeholders) and the whole list is sorted by frame
number. -/
def flattenAndSortResults (results : List FrameTaskResult) : List ProcessedFrame :=
  List.insertionSort frameLE (results.map collectFrameResult)

/-- Collection preserves the frame number. -/
theorem collectFrameResult_frameNumber (result : FrameTaskResult) :
    (collectFrameResult result).frameNumber = result.frameNumber := by
  unfold collectFrameResult
  split <;> rfl

/-- C4: for a job of `n` frames, whatever order the per-frame results of the
concurrent batch and sub-batch completions arrive in (any list of results
whose frame numbers are a permutation of `0..n-1`), the final list handed to
output assembly carries exactly the frame numbers `0, 1, ..., n-1` in
ascending order — no duplicates, no gaps — and every result, failed ones as
empty-buffer placeholders, appears in it. -/
theorem results_sorted_complete (results : List FrameTaskResult) (n : ℕ)
    (hperm : (results.map FrameTaskResult.frameNumber).Perm (List.range n)) :
    (flattenAndSortResults results).map ProcessedFrame.frameNumber = List.range n ∧
    ∀ r ∈ results, collectFrameResult r ∈ flattenAndSortResults results := by
  constructor
  · have hp1 : (flattenAndSortResults results).Perm (results.map collectFrameResult) :=
      List.perm_insertionSort frameLE _
    have hp2 : ((flattenAndSortResults results).map ProcessedFrame.frameNumber).Perm
        (results.map FrameTaskResult.frameNumber) := by
      have := hp1.map ProcessedFrame.frameNumber
      rwa [List.map_map, show ProcessedFrame.frameNumber ∘ collectFrameResult =
        FrameTaskResult.frameNumber from funext collectFrameResult_frameNumber] at this
    have hsorted : ((flattenAndSortResults results).map
        ProcessedFrame.frameNumber).Sorted (· ≤ ·) := by
      have hs : (flattenAndSortResults results).Sorted frameLE :=
        List.sorted_insertionSort frameLE _
      exact List.Pairwise.map ProcessedFrame.frameNumber (fun a b hab => hab) hs
    exact List.eq_of_perm_of_sorted (hp2.trans hperm) hsorted (List.sorted_le_range n)
  · intro r hr
    have : collectFrameResult r ∈ results.map collectFrameResult :=
      List.mem_map_of_mem collectFrameResult hr
    exact (List.perm_insertionSort frameLE _).mem_iff.2 this

/-- Witness for the ordering invariant: three results arriving out of order
(frame 2 failed first, then frames 0 and 1) yield the frame numbers
`[0, 1, 2]` after flatten-and-sort. -/
theorem results_sorted_complete_witness :
    (([⟨2, false, []⟩, ⟨0, true, [7]⟩, ⟨1, true, [9]⟩] :
        List FrameTaskResult).map FrameTaskResult.frameNumber).Perm (List.range 3) ∧
    (flattenAndSortResults [⟨2, false, []⟩, ⟨0, true, [7]⟩, ⟨1, true, [9]⟩]).map
        ProcessedFrame.frameNumber = List.range 3 :=
  ⟨by decide,
    (results_sorted_complete [⟨2, false, []⟩, ⟨0, true, [7]⟩, ⟨1, true, [9]⟩] 3
      (by decide)).1⟩

/-- Native dimensions of a decoded frame (`metadata.width`/`metadata.height`
in `processFrame`, videoProcessor.ts lines 1365-1367). -/
structure FrameDims where
  width : ℕ
  height : ℕ
deriving Repr, DecidableEq

/-- Job status values relevant to the dimension-mismatch path
(`storage.updateVideoJob` status strings). -/
inductive JobStatus
  | processing
  | completed
  | failed
deriving Repr, DecidableEq

/-- Per-frame result as returned by `processFrame` (videoProcessor.ts lines
1575-1587): either the processed frame or, for any exception caught by the
per-frame catch block, a failure record with the error message. -/
structure FrameResult where
  frameNumber : ℕ
  success : Bool
  error : Option String
deriving Repr, DecidableEq

/-- Dimension-validation step of `processFrame` (videoProcessor.ts lines
1425-1435): frame 0 records the reference dimensions; a later frame whose
native dimensions differ throws `Error('Frame dimension mismatch! ...')`.
That throw is caught by `processFrame`'s own catch block (lines 1580-1587)
and becomes a per-frame failure result; the remaining per-frame pixel work
is not modelled here and is taken to succeed. -/
def processFrameDimCheck (ref : Option FrameDims) (frameNumber : ℕ)
    (dims : FrameDims) : Option FrameDims × FrameResult :=
  if frameNumber = 0 then
    (some dims, ⟨frameNumber, true, none⟩)
  else
    match ref with
    | some r =>
        if r.width ≠ dims.width ∨ r.height ≠ dims.height then
          (ref, ⟨frameNumber, false, some "Frame dimension mismatch!"⟩)
        else
          (ref, ⟨frameNumber, true, none⟩)
    | none => (ref, ⟨frameNumber, true, none⟩)

/-- Job driver over the frames of one run: `processFrame` never propagates
an exception (its catch converts everything into a failure result), so the
catch in `processVideo` (videoProcessor.ts lines 352-367) that would set the
job status to 'failed' is not reached and the run finishes 'completed'. -/
def runJobFrames (frames : List FrameDims) : List FrameResult × JobStatus :=
  let out := frames.enum.foldl
    (fun (acc : Option FrameDims × List FrameResult) (p : ℕ × FrameDims) =>
      let step := processFrameDimCheck acc.1 p.1 p.2
      (step.1, acc.2 ++ [step.2]))
    (none, [])
  (out.2, JobStatus.completed)

/-- C7 counterexample: a job whose frame 0 is 100×100 and frame 1 is
200×200 does not fail; the mismatch becomes an individual per-frame failure
(`success: false` with the mismatch message) and the job completes, so no
fatal `DimensionMismatchError` with job status 'failed' occurs. -/
theorem dimension_mismatch_counterexample :
    (runJobFrames [⟨100, 100⟩, ⟨200, 200⟩]).2 ≠ JobStatus.failed ∧
    (runJobFrames [⟨100, 100⟩, ⟨200, 200⟩]).1 =
      [⟨0, true, none⟩, ⟨1, false, some "Frame dimension mismatch!"⟩] := by
  constructor
  · decide
  · rfl

/-- C7 (amended): a native-dimension mismatch between frame 0 and a later
frame of the same run is recorded as an individual per-frame failure (the
thrown mismatch error is caught at the per-frame boundary) while the job
continues; the job status is never set to 'failed' by this path. -/
theorem dimension_mismatch_not_fatal (d0 d1 : FrameDims) (hne : d0 ≠ d1) :
    runJobFrames [d0, d1] =
      ([⟨0, true, none⟩, ⟨1, false, some "Frame dimension mismatch!"⟩],
        JobStatus.completed) ∧
    ∀ frames : List FrameDims, (runJobFrames frames).2 ≠ JobStatus.failed := by
  constructor
  · obtain ⟨w0, h0⟩ := d0
    obtain ⟨w1, h1⟩ := d1
    have hor : w0 ≠ w1 ∨ h0 ≠ h1 := by
      by_contra hcon
      push_neg at hcon
      exact hne (by simp [hcon.1, hcon.2])
    simp [runJobFrames, processFrameDimCheck, List.enum, hor]
  · intro frames
    simp [runJobFrames]

/-- Witness for the amended dimension-mismatch behaviour at the 100×100 /
200×200 scenario. -/
theorem dimension_mismatch_not_fatal_witness :
    ((⟨100, 100⟩ : FrameDims) ≠ (⟨200, 200⟩ : FrameDims)) ∧
    runJobFrames [⟨100, 100⟩, ⟨200, 200⟩] =
      ([⟨0, true, none⟩, ⟨1, false, some "Frame dimension mismatch!"⟩],
        JobStatus.completed) :=
  ⟨by decide, (dimension_mismatch_not_fatal ⟨100, 100⟩ ⟨200, 200⟩ (by decide)).1⟩

/-- JavaScript `Math.round` on the non-negative values handled by the
windowing code: round half up. -/
def jsRound (q : ℚ) : ℤ :=
  ⌊q + 1 / 2⌋

/-- Windowing of one sample value (`processDicomPixelDataHelper`,
frameExtractor.ts lines 472-479; the same formula appears in
`extractDicomImage` lines 673-679): values at or below `windowMin` clamp to
0, values at or above `windowMax` clamp to 255, values in between are
linearly interpolated. -/
def windowValue (windowMin windowMax : ℚ) (value : ℚ) : ℚ :=
  if value ≤ windowMin then 0
  else if windowMax ≤ value then 255
  else (value - windowMin) / (windowMax - windowMin) * 255

/-- The output byte for one sample: the windowed value passed through
`Math.round` (frameExtractor.ts line 478). -/
def windowByte (windowMin windowMax : ℚ) (value : ℚ) : ℤ :=
  jsRound (windowValue windowMin windowMax value)

/-- The 16-bit windowing loop over a whole sample array with an explicit
window center and width: `windowMin = center - width/2`,
`windowMax = center + width/2` (frameExtractor.ts lines 467-479). -/
def processDicomWindow16 (windowCenter windowWidth : ℚ) (samples : List ℕ) :
    List ℤ :=
  samples.map fun v =>
    windowByte (windowCenter - windowWidth / 2) (windowCenter + windowWidth / 2) (v : ℚ)

/-- Smallest sample value as scanned by `extractDicomImage` (frameExtractor.ts
lines 652-657: start from the first element, fold over the rest). -/
def listMin (l : List ℕ) : ℕ :=
  (l.drop 1).foldl min (l.headD 0)

/-- Largest sample value, scanned the same way. -/
def listMax (l : List ℕ) : ℕ :=
  (l.drop 1).foldl max (l.headD 0)

/-- Window selection of `extractDicomImage` (frameExtractor.ts lines
628-661): explicit window center/width when both are present (not
null/undefined); otherwise modality presets (CT: center 40 width 400,
CR or DX: center 1000 width 2000); otherwise auto min/max over the sample
population. Returns `(windowMin, windowMax)`. -/
def selectWindowImage (windowCenter windowWidth : Option ℚ) (modality : String)
    (samples : List ℕ) : ℚ × ℚ :=
  match windowCenter, windowWidth with
  | some c, some w => (c - w / 2, c + w / 2)
  | _, _ =>
    if modality = "CT" then (40 - 400 / 2, 40 + 400 / 2)
    else if modality = "CR" ∨ modality = "DX" then (1000 - 2000 / 2, 1000 + 2000 / 2)
    else ((listMin samples : ℚ), (listMax samples : ℚ))

/-- Truthiness of a JS number attribute: null/undefined and 0 are falsy
(the helper tests `windowCenter && windowWidth`). -/
def truthyNum : Option ℚ → Bool
  | none => false
  | some q => decide (q ≠ 0)

/-- Window selection of `processDicomPixelDataHelper` (frameExtractor.ts
lines 442-486): the modality is read at line 439 but never used; the
explicit window center/width is used only when both are truthy, otherwise
the auto min/max range of the samples. Returns `(windowMin, windowMax)`. -/
def selectWindowHelper (windowCenter windowWidth : Option ℚ) (modality : String)
    (samples : List ℕ) : ℚ × ℚ :=
  if truthyNum windowCenter && truthyNum windowWidth then
    (windowCenter.getD 0 - windowWidth.getD 0 / 2,
     windowCenter.getD 0 + windowWidth.getD 0 / 2)
  else
    ((listMin samples : ℚ), (listMax samples : ℚ))

/-- Modelled from the spec: the window-selection priority order the
specification claims for every 16-bit DICOM frame extraction — (1) the
dataset's explicit window center/width if present, (2) the modality presets
(CT: center 40 width 400; CR/DX: center 1000 width 2000), (3) auto min/max
normalization over the sample population. -/
def claimedWindowSelection (windowCenter windowWidth : Option ℚ)
    (modality : String) (samples : List ℕ) : ℚ × ℚ :=
  match windowCenter, windowWidth with
  | some c, some w => (c - w / 2, c + w / 2)
  | _, _ =>
    if modality = "CT" then (40 - 400 / 2, 40 + 400 / 2)
    else if modality = "CR" ∨ modality = "DX" then (1000 - 2000 / 2, 1000 + 2000 / 2)
    else ((listMin samples : ℚ), (listMax samples : ℚ))

/-- Bytes per frame of a DICOM pixel buffer:
`rows * cols * (bitsAllocated / 8)` (frameExtractor.ts line 232). -/
def dicomBytesPerFrame (rows cols bitsAllocated : ℕ) : ℕ :=
  rows * cols * (bitsAllocated / 8)

/-- Outcome of the frame-slicing stage of `extractDicomFrame`: either the
byte slice of one frame, or the fallback to first-frame extraction via
`extractDicomImage`. -/
inductive DicomFrameResult
  | frameSlice (offset length : ℕ) (bytes : List ℕ)
  | firstFrameFallback
deriving Repr, DecidableEq

/-- Frame-slicing stage of `extractDicomFrame` (frameExtractor.ts lines
215-369): a frame index at or past the detected total frame count is
replaced by 0; the frame offset is `frameIndex * bytesPerFrame`; if the
pixel buffer holds fewer than `frameOffset + bytesPerFrame` bytes the
routine falls back to first-frame extraction, otherwise it reads exactly
`bytesPerFrame` bytes at the offset. -/
def extractDicomFrame (frameIndex totalFrames rows cols bitsAllocated : ℕ)
    (pixelBuffer : List ℕ) : DicomFrameResult :=
  let idx := if totalFrames ≤ frameIndex then 0 else frameIndex
  let frameOffset := idx * dicomBytesPerFrame rows cols bitsAllocated
  if pixelBuffer.length < frameOffset + dicomBytesPerFrame rows cols bitsAllocated then
    .firstFrameFallback
  else
    .frameSlice frameOffset (dicomBytesPerFrame rows cols bitsAllocated)
      ((pixelBuffer.drop frameOffset).take (dicomBytesPerFrame rows cols bitsAllocated))

/-- C5: with an explicit window center `c` and width `w`
(`windowMin = c - w/2`, `windowMax = c + w/2`, `windowMax > windowMin`),
the output array is the per-sample windowing map, and each output byte is 0
when the sample is at or below `windowMin`, 255 when it is at or above
`windowMax`, and `round(((sample - windowMin) / (windowMax - windowMin)) * 255)`
in between. -/
theorem windowing_formula (windowCenter windowWidth : ℚ) (samples : List ℕ)
    (s : ℚ)
    (hw : windowCenter - windowWidth / 2 < windowCenter + windowWidth / 2) :
    processDicomWindow16 windowCenter windowWidth samples =
      samples.map (fun v =>
        windowByte (windowCenter - windowWidth / 2)
          (windowCenter + windowWidth / 2) (v : ℚ)) ∧
    (s ≤ windowCenter - windowWidth / 2 →
      windowByte (windowCenter - windowWidth / 2)
        (windowCenter + windowWidth / 2) s = 0) ∧
    (s ≥ windowCenter + windowWidth / 2 →
      windowByte (windowCenter - windowWidth / 2)
        (windowCenter + windowWidth / 2) s = 255) ∧
    (windowCenter - windowWidth / 2 < s → s < windowCenter + windowWidth / 2 →
      windowByte (windowCenter - windowWidth / 2)
          (windowCenter + windowWidth / 2) s =
        jsRound ((s - (windowCenter - windowWidth / 2)) /
          ((windowCenter + windowWidth / 2) - (windowCenter - windowWidth / 2)) * 255)) := by
  refine ⟨rfl, ?_, ?_, ?_⟩
  · intro hlo
    unfold windowByte windowValue jsRound
    rw [if_pos hlo]
    norm_num
  · intro hhi
    unfold windowByte windowValue jsRound
    rw [if_neg (by linarith), if_pos hhi]
    norm_num
  · intro h1 h2
    unfold windowByte windowValue
    rw [if_neg (by linarith), if_neg (by linarith)]

/-- Witness for the windowing formula: window center 100, width 50, ramp
samples; the sample 50 sits below `windowMin = 75` and maps to 0, and the
whole array maps pointwise. -/
theorem windowing_formula_witness :
    ((100 : ℚ) - 50 / 2 < 100 + 50 / 2 ∧ (50 : ℚ) ≤ 100 - 50 / 2) ∧
    windowByte (100 - 50 / 2) (100 + 50 / 2) 50 = 0 :=
  ⟨⟨by norm_num, by norm_num⟩,
    (windowing_formula 100 50 [50, 200, 100] 50 (by norm_num)).2.1 (by norm_num)⟩

/-- C6 counterexample: per-frame extraction from a multi-frame CT file with
no explicit window attributes uses auto min/max (here `(0, 100)` for samples
`[0, 100]`), not the claimed CT preset window `(-160, 240)`; the helper's
selection differs from the claimed three-tier priority selection. -/
theorem window_priority_counterexample :
    selectWindowHelper none none "CT" [0, 100] = (0, 100) ∧
    claimedWindowSelection none none "CT" [0, 100] = (-160, 240) ∧
    selectWindowHelper none none "CT" [0, 100] ≠
      claimedWindowSelection none none "CT" [0, 100] := by
  refine ⟨?_, ?_, ?_⟩ <;> norm_num [selectWindowHelper, claimedWindowSelection,
    truthyNum, listMin, listMax]

/-- C6 (amended): the three-tier priority (explicit window center/width if
present, else CT preset 40/400 or CR/DX preset 1000/2000, else auto
min/max) governs the whole-image extraction path `extractDicomImage`;
per-frame extraction via `processDicomPixelDataHelper` ignores the modality
entirely and uses the explicit window only when both attributes are truthy,
falling back directly to auto min/max otherwise. -/
theorem window_priority (windowCenter windowWidth : Option ℚ)
    (modality m₁ m₂ : String) (samples : List ℕ) :
    selectWindowImage windowCenter windowWidth modality samples =
      claimedWindowSelection windowCenter windowWidth modality samples ∧
    selectWindowHelper windowCenter windowWidth m₁ samples =
      selectWindowHelper windowCenter windowWidth m₂ samples ∧
    (truthyNum windowCenter = true → truthyNum windowWidth = true →
      selectWindowHelper windowCenter windowWidth m₁ samples =
        (windowCenter.getD 0 - windowWidth.getD 0 / 2,
         windowCenter.getD 0 + windowWidth.getD 0 / 2)) ∧
    ((truthyNum windowCenter = false ∨ truthyNum windowWidth = false) →
      selectWindowHelper windowCenter windowWidth m₁ samples =
        ((listMin samples : ℚ), (listMax samples : ℚ))) := by
  refine ⟨rfl, rfl, ?_, ?_⟩
  · intro hc hwdt
    unfold selectWindowHelper
    rw [if_pos (by rw [hc, hwdt]; rfl)]
  · intro hor
    unfold selectWindowHelper
    rw [if_neg (by rcases hor with h | h <;> simp [h])]

/-- Witness for the window-priority theorem: with no explicit window, the
helper's selection for a CT dataset equals its selection for an MR dataset
(the modality is ignored), and falls back to auto min/max. -/
theorem window_priority_witness :
    (truthyNum none = false ∨ truthyNum (none : Option ℚ) = false) ∧
    selectWindowHelper none none "CT" [5, 9] =
      ((listMin [5, 9] : ℚ), (listMax [5, 9] : ℚ)) :=
  ⟨Or.inl rfl,
    (window_priority none none "CT" "CT" "MR" [5, 9]).2.2.2 (Or.inl rfl)⟩

/-- C8: for multi-frame DICOM per-frame extraction, a requested frame index
at or past the detected total frame count extracts frame 0 instead; for an
in-range index, a pixel buffer with fewer than
`frameIndex * bytesPerFrame + bytesPerFrame` bytes
(`bytesPerFrame = rows * cols * bitsAllocated/8`) falls back to first-frame
extraction, and otherwise exactly `bytesPerFrame` bytes are read at offset
`frameIndex * bytesPerFrame`. -/
theorem dicom_frame_extraction (frameIndex totalFrames rows cols bitsAllocated : ℕ)
    (pixelBuffer : List ℕ) :
    (totalFrames ≤ frameIndex →
      extractDicomFrame frameIndex totalFrames rows cols bitsAllocated pixelBuffer =
        extractDicomFrame 0 totalFrames rows cols bitsAllocated pixelBuffer) ∧
    (frameIndex < totalFrames →
      (pixelBuffer.length <
          frameIndex * dicomBytesPerFrame rows cols bitsAllocated +
            dicomBytesPerFrame rows cols bitsAllocated →
        extractDicomFrame frameIndex totalFrames rows cols bitsAllocated pixelBuffer =
          .firstFrameFallback) ∧
      (frameIndex * dicomBytesPerFrame rows cols bitsAllocated +
            dicomBytesPerFrame rows cols bitsAllocated ≤ pixelBuffer.length →
        extractDicomFrame frameIndex totalFrames rows cols bitsAllocated pixelBuffer =
          .frameSlice (frameIndex * dicomBytesPerFrame rows cols bitsAllocated)
            (dicomBytesPerFrame rows cols bitsAllocated)
            ((pixelBuffer.drop (frameIndex * dicomBytesPerFrame rows cols bitsAllocated)).take
              (dicomBytesPerFrame rows cols bitsAllocated)) ∧
        ((pixelBuffer.drop (frameIndex * dicomBytesPerFrame rows cols bitsAllocated)).take
            (dicomBytesPerFrame rows cols bitsAllocated)).length =
          dicomBytesPerFrame rows cols bitsAllocated)) := by
  constructor
  · intro hge
    unfold extractDicomFrame
    simp [hge, Nat.le_zero]
  · intro hlt
    have hnotle : ¬ totalFrames ≤ frameIndex := Nat.not_le.2 hlt
    constructor
    · intro hshort
      unfold extractDicomFrame
      simp only [if_neg hnotle]
      rw [if_pos hshort]
    · intro hlong
      unfold extractDicomFrame
      simp only [if_neg hnotle]
      rw [if_neg (Nat.not_lt.2 hlong)]
      refine ⟨rfl, ?_⟩
      rw [List.length_take, List.length_drop]
      omega

/-- Witness for the DICOM frame-extraction theorem: frame 1 of 3 with 2×2
8-bit frames (4 bytes per frame) in a 12-byte buffer reads exactly bytes
4-7. -/
theorem dicom_frame_extraction_witness :
    ((1 : ℕ) < 3 ∧
      1 * dicomBytesPerFrame 2 2 8 + dicomBytesPerFrame 2 2 8 ≤
        (List.range 12).length) ∧
    extractDicomFrame 1 3 2 2 8 (List.range 12) =
      .frameSlice (1 * dicomBytesPerFrame 2 2 8) (dicomBytesPerFrame 2 2 8)
        (((List.range 12).drop (1 * dicomBytesPerFrame 2 2 8)).take
          (dicomBytesPerFrame 2 2 8)) :=
  ⟨⟨by decide, by decide⟩,
    ((dicom_frame_extraction 1 3 2 2 8 (List.range 12)).2 (by decide)).2 (by decide) |>.1⟩

end Masquerade
